import Mathlib

/-!
Verification of the fly-japan flight-search script (src/main.py).

The script's data model and pure operations are shallowly embedded below:
`FlightItinerary`, `KiwiFlightInfo`, `BestFlights` and `AllOptionsForJapan`
mirror the Python dataclasses; `all_flight_options` mirrors the Cartesian
itinerary generator; `kiwi_payload` mirrors the request payload built inside
`get_raw_kiwi_results`; `extract_flight_info` mirrors the per-record
extractor (a missing dict key becomes an `Except.error`, modelling the
KeyError); `set_flights` and `search_and_set_flights` mirror the per-itinerary
searcher, with the network call abstracted as an oracle from the built payload
to an outcome; `to_csv` mirrors the CSV exporter with the file system
abstracted as a success/failure flag; the thread-pool batch runner is
modelled as a small-step transition system with the pool width taken from
the code's `max_concurrent`.
-/

namespace FlyJapan

/-- Calendar date (no time component), mirroring Python's `datetime.date`. -/
structure Date where
  year : Nat
  month : Nat
  day : Nat
deriving DecidableEq, Repr

/-- Mirrors the `FlightItinerary` dataclass of src/main.py. -/
structure FlightItinerary where
  home_out : String
  dest_in : String
  dest_out : String
  home_in : String
  date_from : Date
  date_to : Date
deriving DecidableEq, Repr

/-- Mirrors the `KiwiFlightInfo` dataclass of src/main.py.
`price` is an integer amount; `duration` and `quality` are modelled as
rationals (the Python floats hold exact values in all code paths proved
about below). -/
structure KiwiFlightInfo where
  price : Int
  duration : ℚ
  quality : ℚ
  link : String
deriving DecidableEq, Repr

/-- One raw result record of the remote API response.  Each field is an
`Option` because the Python code reads it with a dict lookup that raises
`KeyError` when absent (spec section 6: entries expose price, integer
duration in seconds, quality, deep link). -/
structure RawRecord where
  price : Option Int
  duration : Option Int
  quality : Option ℚ
  deep_link : Option String
deriving DecidableEq, Repr

/-- Mirrors the `BestFlights` dataclass of src/main.py. -/
structure BestFlights where
  flight_plan : FlightItinerary
  search_results : List KiwiFlightInfo
deriving DecidableEq, Repr

/-- Zero-pad a numeral to two digits, as Python's strftime `%d` / `%m` do. -/
def pad2 (n : Nat) : String :=
  if n < 10 then "0" ++ toString n else toString n

/-- Mirrors `BestFlights.date_to_kiwi_format`: `d.strftime("%d/%m/%Y")`,
a day/month/year string. -/
def BestFlights.date_to_kiwi_format (_self : BestFlights) (d : Date) : String :=
  pad2 d.day ++ "/" ++ pad2 d.month ++ "/" ++ toString d.year

/-- One leg spec of the request payload built in `get_raw_kiwi_results`
(fields in source order). -/
structure LegSpec where
  limit : Nat
  sort : String
  curr : String
  fly_to : String
  fly_from : String
  date_from : String
  date_to : String
  adults : Nat
deriving DecidableEq, Repr

/-- The `payload["requests"]` list built inside `BestFlights.get_raw_kiwi_results`. -/
def BestFlights.kiwi_payload (self : BestFlights) (flight_plan : FlightItinerary) :
    List LegSpec :=
  [ { limit := 5
      sort := "quality"
      curr := "USD"
      fly_to := flight_plan.dest_in
      fly_from := flight_plan.home_out
      date_from := self.date_to_kiwi_format flight_plan.date_from
      date_to := self.date_to_kiwi_format flight_plan.date_from
      adults := 1 },
    { limit := 5
      sort := "quality"
      curr := "USD"
      fly_to := flight_plan.home_in
      fly_from := flight_plan.dest_out
      date_from := self.date_to_kiwi_format flight_plan.date_to
      date_to := self.date_to_kiwi_format flight_plan.date_to
      adults := 1 } ]

/-- Outcome of one HTTP exchange with the remote API, as observed by
`get_raw_kiwi_results`: `requests.post` may raise a transport error,
`raise_for_status` raises on a non-2xx status, `json.loads` may raise a
parse error, and otherwise the parsed response is a list of raw records. -/
inductive NetworkOutcome where
  | transportError
  | httpError
  | parseError
  | success (records : List RawRecord)
deriving DecidableEq, Repr

/-- The network environment: what outcome the remote exchange has for a
given request payload. -/
def Network : Type := List LegSpec → NetworkOutcome

/-- Mirrors `BestFlights.get_raw_kiwi_results`: builds the payload, performs
the exchange, and catches every exception (printing it) before falling
through to `return None`.  So the three failure outcomes all yield `none`
and a parsed response yields `some records`. -/
def BestFlights.get_raw_kiwi_results (self : BestFlights)
    (flight_plan : FlightItinerary) (net : Network) : Option (List RawRecord) :=
  match net (self.kiwi_payload flight_plan) with
  | NetworkOutcome.success records => some records
  | NetworkOutcome.transportError => none
  | NetworkOutcome.httpError => none
  | NetworkOutcome.parseError => none

/-- Round a rational to the nearest integer, ties to even — the behaviour
of Python's builtin `round` on exactly-representable values. -/
def roundHalfEven (q : ℚ) : ℤ :=
  let f := ⌊q⌋
  let frac := q - (f : ℚ)
  if frac < 1 / 2 then f
  else if 1 / 2 < frac then f + 1
  else if f % 2 = 0 then f else f + 1

/-- `round(x, 2)`: round to 2 decimal places. -/
def round2 (q : ℚ) : ℚ := (roundHalfEven (q * 100) : ℚ) / 100

/-- Mirrors `BestFlights.extract_flight_info`: four dict lookups (KeyError
when the field is absent), duration converted from seconds to hours and
rounded to 2 decimals, other fields copied verbatim. -/
def BestFlights.extract_flight_info (_self : BestFlights) (kiwi_result : RawRecord) :
    Except String KiwiFlightInfo := do
  let price ← match kiwi_result.price with
    | some v => Except.ok v
    | none => Except.error "KeyError: price"
  let durationSec ← match kiwi_result.duration with
    | some v => Except.ok v
    | none => Except.error "KeyError: duration"
  let quality ← match kiwi_result.quality with
    | some v => Except.ok v
    | none => Except.error "KeyError: quality"
  let link ← match kiwi_result.deep_link with
    | some v => Except.ok v
    | none => Except.error "KeyError: deep_link"
  return { price := price
           duration := round2 ((durationSec : ℚ) / 3600)
           quality := quality
           link := link }

/-- The list comprehension `[self.extract_flight_info(i) for i in kiwi_result]`:
records are extracted left to right and the first failure aborts the whole
comprehension. -/
def BestFlights.extract_all (self : BestFlights) :
    List RawRecord → Except String (List KiwiFlightInfo)
  | [] => Except.ok []
  | r :: rs => do
      let info ← self.extract_flight_info r
      let infos ← self.extract_all rs
      return info :: infos

/-- Mirrors `BestFlights.set_flights`.  The argument is the value returned
by `get_raw_kiwi_results`, which is `None` after a caught network failure;
iterating over `None` raises a TypeError.  The field assignment happens only
after the whole comprehension has succeeded. -/
def BestFlights.set_flights (self : BestFlights)
    (kiwi_result : Option (List RawRecord)) : Except String BestFlights :=
  match kiwi_result with
  | none => Except.error "TypeError: NoneType object is not iterable"
  | some records =>
      (self.extract_all records).map
        fun infos => { self with search_results := infos }

/-- Mirrors `BestFlights.search_and_set_flights`: the whole body runs under
a `try`; on success it returns `True`, and any exception is caught, printed,
and the method falls through to `return None`, leaving the object unchanged.
The result is the returned Python value (`some true` for `True`, `none` for
`None`) paired with the post-state of the object. -/
def BestFlights.search_and_set_flights (self : BestFlights) (net : Network) :
    Option Bool × BestFlights :=
  match self.set_flights (self.get_raw_kiwi_results self.flight_plan net) with
  | Except.ok updated => (some true, updated)
  | Except.error _ => (none, self)

/-- Mirrors the `AllOptionsForJapan` dataclass of src/main.py. -/
structure AllOptionsForJapan where
  all_flight_plans : List BestFlights
deriving DecidableEq, Repr

/-- A CSV cell keeps the written Python value symbolically (csv.writer
stringifies each value on write). -/
inductive Cell where
  | str : String → Cell
  | int : Int → Cell
  | rat : ℚ → Cell
  | date : Date → Cell
deriving DecidableEq, Repr

/-- The fixed `csv_header` list of `AllOptionsForJapan.to_csv`. -/
def csv_header : List String :=
  ["Home Out", "Dest In", "Dest Out", "Home In", "Date From", "Date To",
   "Price", "Duration", "Quality", "Link"]

/-- The header row as written to the file. -/
def csv_header_row : List Cell := csv_header.map Cell.str

/-- One data row of `to_csv`: the owning itinerary's six fields followed by
the offer's four fields, in source order. -/
def flight_row (plan : BestFlights) (flight_info : KiwiFlightInfo) : List Cell :=
  [ Cell.str plan.flight_plan.home_out,
    Cell.str plan.flight_plan.dest_in,
    Cell.str plan.flight_plan.dest_out,
    Cell.str plan.flight_plan.home_in,
    Cell.date plan.flight_plan.date_from,
    Cell.date plan.flight_plan.date_to,
    Cell.int flight_info.price,
    Cell.rat flight_info.duration,
    Cell.rat flight_info.quality,
    Cell.str flight_info.link ]

/-- The `rows` comprehension of `to_csv`: for each plan, one row per entry
of its `search_results` (the innermost single-element loop only rebinds
`flight_plan` to `plan.flight_plan`). -/
def csv_rows (a : AllOptionsForJapan) : List (List Cell) :=
  a.all_flight_plans.flatMap fun plan => plan.search_results.map (flight_row plan)

/-- The full file content written by `to_csv`: header row then data rows. -/
def csv_content (a : AllOptionsForJapan) : List (List Cell) :=
  csv_header_row :: csv_rows a

/-- Mirrors `AllOptionsForJapan.to_csv`.  The file system is abstracted by
`writable`: opening an unwritable path raises, and no handler inside
`to_csv` catches it, so the error propagates; on success the file holds
`csv_content` and the method returns `0`. -/
def AllOptionsForJapan.to_csv (a : AllOptionsForJapan) (writable : Bool) :
    Except String (List (List Cell) × Int) :=
  if writable then Except.ok (csv_content a, 0)
  else Except.error "OSError: cannot open file for writing"

/-- Mirrors `all_flight_options`: the four nested comprehension loops,
`u_out` outermost, then `j_in`, then `j_out`, then `u_in` innermost. -/
def all_flight_options (us_ports japan_ports : List String)
    (date_from date_to : Date) : List FlightItinerary :=
  us_ports.flatMap fun u_out =>
    japan_ports.flatMap fun j_in =>
      japan_ports.flatMap fun j_out =>
        us_ports.map fun u_in =>
          { home_out := u_out
            dest_in := j_in
            dest_out := j_out
            home_in := u_in
            date_from := date_from
            date_to := date_to }

/-- The `max_concurrent` constant of `search_and_set_best_flights`. -/
def max_concurrent : Nat := 2

/-- Abstract state of the thread pool driving one batch: how many searches
have not started, are in flight, and have completed. -/
structure PoolState where
  pending : Nat
  running : Nat
  done : Nat
deriving DecidableEq, Repr

/-- One scheduling step of a pool of width `w` (the ThreadPoolExecutor
contract: a submitted task starts only while fewer than `w` workers are
busy; a running task may complete). -/
inductive PoolStep (w : Nat) : PoolState → PoolState → Prop where
  | begin_task (s : PoolState) (hp : 0 < s.pending) (hr : s.running < w) :
      PoolStep w s ⟨s.pending - 1, s.running + 1, s.done⟩
  | finish_task (s : PoolState) (hr : 0 < s.running) :
      PoolStep w s ⟨s.pending, s.running - 1, s.done + 1⟩

/-- Reachability in the pool transition system. -/
inductive PoolReach (w : Nat) : PoolState → PoolState → Prop where
  | refl (s : PoolState) : PoolReach w s s
  | tail (s t u : PoolState) (h : PoolReach w s t) (hs : PoolStep w t u) :
      PoolReach w s u

/-- Initial pool state of `search_and_set_best_flights`: every flight plan
of the batch submitted, none started. -/
def batch_pool_init (a : AllOptionsForJapan) : PoolState :=
  ⟨a.all_flight_plans.length, 0, 0⟩

/-! Concrete fixtures used by witnesses and counterexamples. -/

/-- A concrete itinerary (the first one `main` generates for the socal group). -/
def itin0 : FlightItinerary :=
  ⟨"LAX", "HND", "HND", "LAX", ⟨2024, 3, 22⟩, ⟨2024, 4, 1⟩⟩

/-- A concrete `BestFlights` entry with the initially empty results list,
exactly as `main` constructs them. -/
def b0 : BestFlights := ⟨itin0, []⟩

/-- A raw record carrying all four required fields. -/
def fullRec : RawRecord := ⟨some 450, some 36000, some (15 / 2), some "http://x"⟩

/-- A raw record missing the `price` field. -/
def recNoPrice : RawRecord := ⟨none, some 36000, some (15 / 2), some "http://x"⟩

/-! Helper lemmas shared by several theorems. -/

/-- Length of a `flatMap` whose branches all have the same length. -/
theorem length_flatMap_const {α β : Type} (l : List α) (f : α → List β) (c : Nat)
    (h : ∀ x, (f x).length = c) : (l.flatMap f).length = l.length * c := by
  induction l with
  | nil => simp
  | cons a t ih => simp [List.flatMap_cons, h, ih, Nat.succ_mul, Nat.add_comm]

/-- `extract_all` preserves the record count when it succeeds. -/
theorem extract_all_length (self : BestFlights) (records : List RawRecord)
    (infos : List KiwiFlightInfo)
    (h : self.extract_all records = Except.ok infos) :
    infos.length = records.length := by
  induction records generalizing infos with
  | nil =>
      simp only [BestFlights.extract_all] at h
      cases h
      rfl
  | cons r rs ih =>
      simp only [BestFlights.extract_all] at h
      cases hr : self.extract_flight_info r with
      | error e => rw [hr] at h; cases h
      | ok info =>
          rw [hr] at h
          cases hrs : self.extract_all rs with
          | error e => rw [hrs] at h; cases h
          | ok infos2 =>
              rw [hrs] at h
              cases h
              simp [ih infos2 hrs]

/-! Theorems about the claims. -/

/-- C2: `all_flight_options` returns the full Cartesian product — m²·n²
itineraries, each carrying the given dates, membership characterised by the
four component choices, empty inputs giving an empty sequence, and the
nesting order witnessed on A = ["LAX"], B = ["HND","NRT"]. -/
theorem all_flight_options_cartesian (A B : List String) (d r : Date) :
    (all_flight_options A B d r).length = A.length ^ 2 * B.length ^ 2
    ∧ (∀ it, it ∈ all_flight_options A B d r ↔
        ∃ a1 ∈ A, ∃ b1 ∈ B, ∃ b2 ∈ B, ∃ a2 ∈ A,
          it = ⟨a1, b1, b2, a2, d, r⟩)
    ∧ (∀ it ∈ all_flight_options A B d r, it.date_from = d ∧ it.date_to = r)
    ∧ all_flight_options [] B d r = []
    ∧ all_flight_options A [] d r = []
    ∧ all_flight_options ["LAX"] ["HND", "NRT"] d r =
        [⟨"LAX", "HND", "HND", "LAX", d, r⟩,
         ⟨"LAX", "HND", "NRT", "LAX", d, r⟩,
         ⟨"LAX", "NRT", "HND", "LAX", d, r⟩,
         ⟨"LAX", "NRT", "NRT", "LAX", d, r⟩] := by
  refine ⟨?_, ?_, ?_, ?_, ?_, ?_⟩
  · simp only [all_flight_options]
    rw [length_flatMap_const _ _ (B.length * (B.length * A.length))]
    · ring
    · intro a1
      rw [length_flatMap_const _ _ (B.length * A.length)]
      intro b1
      rw [length_flatMap_const _ _ A.length]
      intro b2
      simp
  · intro it
    simp only [all_flight_options, List.mem_flatMap, List.mem_map]
    constructor
    · rintro ⟨a1, ha1, b1, hb1, b2, hb2, a2, ha2, rfl⟩
      exact ⟨a1, ha1, b1, hb1, b2, hb2, a2, ha2, rfl⟩
    · rintro ⟨a1, ha1, b1, hb1, b2, hb2, a2, ha2, rfl⟩
      exact ⟨a1, ha1, b1, hb1, b2, hb2, a2, ha2, rfl⟩
  · intro it hit
    simp only [all_flight_options, List.mem_flatMap, List.mem_map] at hit
    obtain ⟨a1, _, b1, _, b2, _, a2, _, rfl⟩ := hit
    exact ⟨rfl, rfl⟩
  · rfl
  · simp [all_flight_options]
  · rfl

/-- C2 witness: the characterisation instantiated on concrete inputs. -/
theorem all_flight_options_cartesian_witness :
    (all_flight_options ["LAX"] ["HND", "NRT"] ⟨2024, 3, 22⟩ ⟨2024, 4, 1⟩).length
      = 1 ^ 2 * 2 ^ 2
    ∧ ((⟨"LAX", "HND", "HND", "LAX", ⟨2024, 3, 22⟩, ⟨2024, 4, 1⟩⟩ : FlightItinerary).date_from
        = ⟨2024, 3, 22⟩) := by
  have h := all_flight_options_cartesian ["LAX"] ["HND", "NRT"] ⟨2024, 3, 22⟩ ⟨2024, 4, 1⟩
  refine ⟨h.1, (h.2.2.1 _ ?_).1⟩
  rw [h.2.2.2.2.2]
  exact List.mem_cons_self _ _

/-- C3: the request payload holds exactly two leg specs; leg 1 flies
origin-out → dest-in on the depart date, leg 2 flies dest-out → origin-in on
the return date, both with a 5-result limit, quality sort, USD currency and
1 adult, and dates are rendered as day/month/year strings. -/
theorem kiwi_payload_two_legs (self : BestFlights) (fp : FlightItinerary) :
    ∃ leg1 leg2, self.kiwi_payload fp = [leg1, leg2]
      ∧ leg1.fly_from = fp.home_out ∧ leg1.fly_to = fp.dest_in
      ∧ leg1.date_from = self.date_to_kiwi_format fp.date_from
      ∧ leg1.date_to = self.date_to_kiwi_format fp.date_from
      ∧ leg2.fly_from = fp.dest_out ∧ leg2.fly_to = fp.home_in
      ∧ leg2.date_from = self.date_to_kiwi_format fp.date_to
      ∧ leg2.date_to = self.date_to_kiwi_format fp.date_to
      ∧ leg1.limit = 5 ∧ leg2.limit = 5
      ∧ leg1.sort = "quality" ∧ leg2.sort = "quality"
      ∧ leg1.curr = "USD" ∧ leg2.curr = "USD"
      ∧ leg1.adults = 1 ∧ leg2.adults = 1
      ∧ (∀ d : Date, self.date_to_kiwi_format d =
          pad2 d.day ++ "/" ++ pad2 d.month ++ "/" ++ toString d.year)
      ∧ self.date_to_kiwi_format ⟨2024, 3, 22⟩ = "22/03/2024" := by
  refine ⟨_, _, rfl, rfl, rfl, rfl, rfl, rfl, rfl, rfl, rfl, rfl, rfl, rfl,
    rfl, rfl, rfl, rfl, rfl, fun d => rfl, ?_⟩
  rfl

/-- C4: on a record with all four fields present, the extractor copies
price, quality and link verbatim and converts the duration from seconds to
hours rounded to 2 decimals; on the spec's concrete record it yields
exactly Offer{price 450, duration 10.0, quality 7.5, link "http://x"}. -/
theorem extract_flight_info_converts (self : BestFlights) (p dsec : Int)
    (q : ℚ) (l : String) :
    self.extract_flight_info ⟨some p, some dsec, some q, some l⟩ =
      Except.ok ⟨p, round2 ((dsec : ℚ) / 3600), q, l⟩
    ∧ self.extract_flight_info fullRec =
      Except.ok ⟨450, 10, 15 / 2, "http://x"⟩ := by
  refine ⟨rfl, ?_⟩
  have h1 : self.extract_flight_info fullRec =
      Except.ok ⟨450, round2 (((36000 : Int) : ℚ) / 3600), 15 / 2, "http://x"⟩ := rfl
  have h2 : round2 (((36000 : Int) : ℚ) / 3600) = 10 := by
    norm_num [round2, roundHalfEven]
  rw [h1, h2]

/-- C5: on a record missing any of the four required fields, the extractor
signals an error (it never returns an Offer, hence never substitutes a
default for the missing field). -/
theorem extract_flight_info_missing_field (self : BestFlights) (r : RawRecord)
    (h : r.price = none ∨ r.duration = none ∨ r.quality = none ∨
      r.deep_link = none) :
    ∀ info, self.extract_flight_info r ≠ Except.ok info := by
  intro info heq
  obtain ⟨p, dd, qq, ll⟩ := r
  cases p <;> cases dd <;> cases qq <;> cases ll <;>
    first
      | exact Except.noConfusion heq
      | simp_all

/-- C5 witness: with the price key absent, extraction does not produce an
Offer. -/
theorem extract_flight_info_missing_field_witness :
    BestFlights.extract_flight_info b0 recNoPrice ≠
      Except.ok ⟨450, 10, 15 / 2, "http://x"⟩ :=
  extract_flight_info_missing_field b0 recNoPrice (Or.inl rfl) _

/-- Successful extraction: `set_flights` replaces `search_results`. -/
theorem set_flights_some_ok (b : BestFlights) (records : List RawRecord)
    (infos : List KiwiFlightInfo) (h : b.extract_all records = Except.ok infos) :
    b.set_flights (some records) =
      Except.ok { b with search_results := infos } := by
  have hd : b.set_flights (some records) =
      Except.map (fun infos => { b with search_results := infos })
        (b.extract_all records) := rfl
  rw [hd, h]
  rfl

/-- Failed extraction: `set_flights` propagates the error. -/
theorem set_flights_some_err (b : BestFlights) (records : List RawRecord)
    (e : String) (h : b.extract_all records = Except.error e) :
    b.set_flights (some records) = Except.error e := by
  have hd : b.set_flights (some records) =
      Except.map (fun infos => { b with search_results := infos })
        (b.extract_all records) := rfl
  rw [hd, h]
  rfl

/-- When `set_flights` succeeds, the search returns `True` and the updated
object. -/
theorem search_and_set_eq_ok (b : BestFlights) (net : Network)
    (updated : BestFlights)
    (h : b.set_flights (b.get_raw_kiwi_results b.flight_plan net) =
      Except.ok updated) :
    b.search_and_set_flights net = (some true, updated) := by
  unfold BestFlights.search_and_set_flights
  rw [h]

/-- When `set_flights` raises, the exception is caught: the search returns
`None` and the object is unchanged. -/
theorem search_and_set_eq_err (b : BestFlights) (net : Network) (e : String)
    (h : b.set_flights (b.get_raw_kiwi_results b.flight_plan net) =
      Except.error e) :
    b.search_and_set_flights net = (none, b) := by
  unfold BestFlights.search_and_set_flights
  rw [h]

/-- C6: when the exchange fails (transport error, non-2xx status, or JSON
parse error), `search_and_set_flights` returns `None` without raising and
leaves the object unchanged, so initially empty Offers stay empty. -/
theorem search_and_set_flights_failure (b : BestFlights) (net : Network)
    (h : ∀ records,
      net (b.kiwi_payload b.flight_plan) ≠ NetworkOutcome.success records) :
    b.search_and_set_flights net = (none, b)
    ∧ (b.search_results = [] →
        (b.search_and_set_flights net).2.search_results = []) := by
  have hg : b.get_raw_kiwi_results b.flight_plan net = none := by
    unfold BestFlights.get_raw_kiwi_results
    cases hnet : net (b.kiwi_payload b.flight_plan) with
    | success records => exact absurd hnet (h records)
    | transportError => rfl
    | httpError => rfl
    | parseError => rfl
  have hmain : b.search_and_set_flights net = (none, b) :=
    search_and_set_eq_err b net _ (by rw [hg]; rfl)
  exact ⟨hmain, fun hempty => by rw [hmain]; exact hempty⟩

/-- The network oracle for a transport failure. -/
def net_fail : Network := fun _ => NetworkOutcome.transportError

/-- C6 witness: a transport error on the concrete entry reports failure and
leaves the Offers list empty. -/
theorem search_and_set_flights_failure_witness :
    BestFlights.search_and_set_flights b0 net_fail = (none, b0)
    ∧ (BestFlights.search_and_set_flights b0 net_fail).2.search_results = [] :=
  have h := search_and_set_flights_failure b0 net_fail
    (fun _ hr => NetworkOutcome.noConfusion hr)
  ⟨h.1, h.2 rfl⟩

/-- C10: `search_and_set_flights` returns `True` exactly when search and
extraction succeed, and `None` (never `False`, never an escaped exception —
the function is total) on any failure. -/
theorem search_and_set_flights_return_values (b : BestFlights) (net : Network) :
    ((b.search_and_set_flights net).1 = some true
      ∨ (b.search_and_set_flights net).1 = none)
    ∧ (b.search_and_set_flights net).1 ≠ some false
    ∧ ((b.search_and_set_flights net).1 = some true ↔
        ∃ updated, b.set_flights (b.get_raw_kiwi_results b.flight_plan net) =
          Except.ok updated) := by
  cases hs : b.set_flights (b.get_raw_kiwi_results b.flight_plan net) with
  | error e =>
      have hm := search_and_set_eq_err b net e hs
      rw [hm]
      refine ⟨Or.inr rfl, by simp, ?_, ?_⟩
      · intro hcontr
        exact Option.noConfusion hcontr
      · rintro ⟨updated, hb⟩
        exact Except.noConfusion hb
  | ok updated =>
      have hm := search_and_set_eq_ok b net updated hs
      rw [hm]
      exact ⟨Or.inl rfl, by simp, iff_of_true rfl ⟨updated, rfl⟩⟩

/-- C1 (amended): the Offers list after a search has exactly one entry per
raw record of the response; under the remote contract of two legs each
capped at 5 records (≤ 10 records total), its length is at most 10 —
not 5. -/
theorem search_results_length_bound (b : BestFlights) (net : Network)
    (records : List RawRecord)
    (hnet : net (b.kiwi_payload b.flight_plan) = NetworkOutcome.success records)
    (hlen : records.length ≤ 10) (hstart : b.search_results = []) :
    (b.search_and_set_flights net).2.search_results.length ≤ 10
    ∧ ((b.search_and_set_flights net).1 = some true →
        (b.search_and_set_flights net).2.search_results.length =
          records.length) := by
  have hg : b.get_raw_kiwi_results b.flight_plan net = some records := by
    unfold BestFlights.get_raw_kiwi_results
    rw [hnet]
  cases he : b.extract_all records with
  | error e =>
      have hm : b.search_and_set_flights net = (none, b) :=
        search_and_set_eq_err b net e (by rw [hg]; exact set_flights_some_err b records e he)
      rw [hm]
      refine ⟨?_, fun hcontr => Option.noConfusion hcontr⟩
      simp [hstart]
  | ok infos =>
      have hm : b.search_and_set_flights net =
          (some true, { b with search_results := infos }) :=
        search_and_set_eq_ok b net _ (by rw [hg]; exact set_flights_some_ok b records infos he)
      rw [hm]
      have hl := extract_all_length b records infos he
      exact ⟨le_trans (le_of_eq hl) hlen, fun _ => hl⟩

/-- A response of six full raw records (more than the claimed cap of 5, as
the two legs can return up to 5 each). -/
def sixRecords : List RawRecord := List.replicate 6 fullRec

/-- The network oracle for a successful exchange returning six records. -/
def net6 : Network := fun _ => NetworkOutcome.success sixRecords

/-- C1 counterexample: after a successful search whose response holds six
records, the Offers list has length 6 — the claimed bound of 5 fails. -/
theorem search_results_length_counterexample :
    ¬ ((BestFlights.search_and_set_flights b0 net6).2.search_results.length
        ≤ 5) := by
  have h6 : (BestFlights.search_and_set_flights b0 net6).2.search_results.length
      = 6 := rfl
  rw [h6]
  decide

/-- C1 witness (for the amended bound): on the same six-record response the
length is ≤ 10 and equals the record count. -/
theorem search_results_length_bound_witness :
    (BestFlights.search_and_set_flights b0 net6).2.search_results.length ≤ 10
    ∧ ((BestFlights.search_and_set_flights b0 net6).1 = some true →
        (BestFlights.search_and_set_flights b0 net6).2.search_results.length =
          sixRecords.length) :=
  search_results_length_bound b0 net6 sixRecords rfl (by decide) rfl

/-- C7: the exported file is one 10-column header row followed by exactly
one data row per (itinerary, offer) pair — each offer's four fields appended
after its owning itinerary's six fields, in batch order then offer order;
itineraries with zero offers contribute zero rows, and a batch where every
itinerary has zero offers yields the header row alone. -/
theorem to_csv_content_shape (a : AllOptionsForJapan) :
    a.to_csv true = Except.ok (csv_header_row :: csv_rows a, 0)
    ∧ csv_header_row.length = 10
    ∧ csv_rows a = a.all_flight_plans.flatMap
        (fun plan => plan.search_results.map (flight_row plan))
    ∧ (∀ plan info, flight_row plan info =
        [Cell.str plan.flight_plan.home_out, Cell.str plan.flight_plan.dest_in,
         Cell.str plan.flight_plan.dest_out, Cell.str plan.flight_plan.home_in,
         Cell.date plan.flight_plan.date_from, Cell.date plan.flight_plan.date_to]
        ++ [Cell.int info.price, Cell.rat info.duration,
            Cell.rat info.quality, Cell.str info.link])
    ∧ (csv_content a).length =
        1 + (a.all_flight_plans.map fun plan => plan.search_results.length).sum
    ∧ (∀ plan ∈ a.all_flight_plans, plan.search_results = [] →
        plan.search_results.map (flight_row plan) = [])
    ∧ ((∀ plan ∈ a.all_flight_plans, plan.search_results = []) →
        csv_content a = [csv_header_row]) := by
  refine ⟨rfl, rfl, rfl, fun plan info => rfl, ?_, ?_, ?_⟩
  · simp only [csv_content, csv_rows, List.length_cons, List.length_flatMap,
      Function.comp_def, List.length_map]
    omega
  · intro plan _ hempty
    rw [hempty]
    rfl
  · intro hall
    simp only [csv_content, csv_rows]
    congr 1
    rw [List.flatMap_eq_nil_iff]
    intro plan hplan
    rw [hall plan hplan]
    rfl

/-- C7 witness: a batch of one itinerary with zero offers exports just the
header row, which has 10 columns. -/
theorem to_csv_content_shape_witness :
    csv_content ⟨[b0]⟩ = [csv_header_row] ∧ csv_header_row.length = 10 :=
  have h := to_csv_content_shape ⟨[b0]⟩
  ⟨h.2.2.2.2.2.2 (by intro plan hp; rw [List.mem_singleton] at hp; rw [hp]; rfl),
   h.2.1⟩

/-- C8: `to_csv` returns the success indicator `0` when the write succeeds,
and an output-write error propagates out of the exporter uncaught. -/
theorem to_csv_error_propagation (a : AllOptionsForJapan) :
    a.to_csv true = Except.ok (csv_content a, 0)
    ∧ a.to_csv false =
        Except.error "OSError: cannot open file for writing" :=
  ⟨rfl, rfl⟩

/-- Safety invariant of the pool transition system: along every run, the
number of in-flight tasks never exceeds the pool width, and the task count
is conserved. -/
theorem pool_reach_invariant (w k : Nat) (s : PoolState)
    (h : PoolReach w ⟨k, 0, 0⟩ s) :
    s.running ≤ w ∧ s.pending + s.running + s.done = k := by
  induction h with
  | refl => exact ⟨Nat.zero_le w, by simp⟩
  | tail t u hreach hstep ih =>
      cases hstep with
      | begin_task hp hr =>
          refine ⟨hr, ?_⟩
          have := ih.2
          simp only at this ⊢
          omega
      | finish_task hr =>
          refine ⟨le_trans (Nat.sub_le _ _) ih.1, ?_⟩
          have := ih.2
          simp only at this ⊢
          omega

/-- C9: for a batch of k itineraries run by `search_and_set_best_flights`,
every reachable pool state has at most `max_concurrent = 2` searches in
flight, and when the runner returns (nothing pending, nothing running) all
k searches have completed. -/
theorem search_and_set_best_flights_concurrency (a : AllOptionsForJapan)
    (s : PoolState) (h : PoolReach max_concurrent (batch_pool_init a) s) :
    s.running ≤ 2
    ∧ (s.pending = 0 → s.running = 0 →
        s.done = a.all_flight_plans.length) := by
  have hi := pool_reach_invariant max_concurrent a.all_flight_plans.length s h
  refine ⟨hi.1, fun h1 h2 => ?_⟩
  have := hi.2
  omega

/-- C9 witness: a single-itinerary batch scheduled start-then-finish ends
with its one search done, never exceeding two in flight. -/
theorem search_and_set_best_flights_concurrency_witness :
    (⟨0, 0, 1⟩ : PoolState).running ≤ 2
    ∧ (⟨0, 0, 1⟩ : PoolState).done =
        (AllOptionsForJapan.mk [b0]).all_flight_plans.length :=
  have hstep1 : PoolStep max_concurrent ⟨1, 0, 0⟩ ⟨0, 1, 0⟩ :=
    PoolStep.begin_task ⟨1, 0, 0⟩ (by decide) (by decide)
  have hstep2 : PoolStep max_concurrent ⟨0, 1, 0⟩ ⟨0, 0, 1⟩ :=
    PoolStep.finish_task ⟨0, 1, 0⟩ (by decide)
  have hreach : PoolReach max_concurrent (batch_pool_init ⟨[b0]⟩) ⟨0, 0, 1⟩ :=
    PoolReach.tail _ _ _ (PoolReach.tail _ _ _ (PoolReach.refl _) hstep1) hstep2
  have h := search_and_set_best_flights_concurrency ⟨[b0]⟩ ⟨0, 0, 1⟩ hreach
  ⟨h.1, h.2 rfl rfl⟩

end FlyJapan
